import Mathlib

/-!
Verification of `check_systemd_units.py` (InnoGames monitoring plugins).

The script classifies systemd units into anomaly categories, buckets the
findings into critical/warning lists according to caller-supplied critical
patterns, and renders a single Nagios-style message with an exit code.

The embedding below translates the Python source function by function.
External effects are made explicit parameters:
  * the per-unit `systemctl show -p ExecMainStatus` query of `get_exit_code`
    becomes an `Except Unit Int` argument (failure = `CalledProcessError`);
  * in the pipeline the composed lookup is a function `String → Int`;
  * the inventory text obtained by `check_output` in `main` becomes an
    `Except String String` argument (failure carries `str(error)`).
Python exceptions raised by the core itself (index/arity errors on malformed
inventory lines) are modelled by `Option`: `none` means the run raises.
-/

/-- `Problem` enum from the source, "from more important to less". -/
inductive Problem where
  | failed
  | activating_auto_restart
  | not_loaded_but_not_inactive
  | not_loaded_but_not_dead
  | dead
  | not_loaded
deriving DecidableEq, Repr

/-- The integer value each `Problem` attribute has in the source class
(`failed = 0`, ..., `not_loaded = 5`); the source compares these ints. -/
def Problem.rank : Problem → Nat
  | .failed => 0
  | .activating_auto_restart => 1
  | .not_loaded_but_not_inactive => 2
  | .not_loaded_but_not_dead => 3
  | .dead => 4
  | .not_loaded => 5

/-- The Python attribute name of each `Problem` value (the keys of
`vars(Problem)` that carry an int). -/
def Problem.attrName : Problem → String
  | .failed => "failed"
  | .activating_auto_restart => "activating_auto_restart"
  | .not_loaded_but_not_inactive => "not_loaded_but_not_inactive"
  | .not_loaded_but_not_dead => "not_loaded_but_not_dead"
  | .dead => "dead"
  | .not_loaded => "not_loaded"

/-- The namespace of `parse_args`: the three options the `ArgumentParser`
collects (`-a` store_true, `-s` append, `-i` append). -/
structure Args where
  check_all : Bool
  critical_units : List String
  ignored_units : List String

/-- Python's whitespace set for `str.split(None)` / `str.strip()`
(ASCII range; the inventory lines only ever contain these). -/
def isPyWs (c : Char) : Bool :=
  c = ' ' || c = '\t' || c = '\n' || c = '\x0b' || c = '\x0c' || c = '\r'

/-- Worker for `pySplitWs`; `fuel ≥` length of the char list makes the
fuel-exhaustion branch unreachable. -/
def pySplitWsGo : Nat → Nat → List Char → List String
  | _, _, [] => []
  | 0, _, _ :: _ => []
  | fuel + 1, maxsplit, c :: cs =>
    if isPyWs c then
      pySplitWsGo fuel maxsplit cs
    else
      match maxsplit with
      | 0 => [String.mk (c :: cs)]
      | m + 1 =>
        String.mk ((c :: cs).takeWhile (fun ch => !isPyWs ch)) ::
          pySplitWsGo fuel m ((c :: cs).dropWhile (fun ch => !isPyWs ch))

/-- Python `s.split(None, maxsplit)`: runs of whitespace separate tokens,
no empty tokens at the ends; once `maxsplit` splits are done the remainder
(leading whitespace stripped) is the final element. -/
def pySplitWs (maxsplit : Nat) (s : String) : List String :=
  pySplitWsGo s.length maxsplit s.data

/-- Python `s.strip()`: remove leading and trailing whitespace. -/
def pyStrip (s : String) : String :=
  String.mk (((s.data.dropWhile isPyWs).reverse.dropWhile isPyWs).reverse)

/-- Worker for `pySplitlines`: emit a line at each newline; at the end the
pending line is emitted only when non-empty (so no trailing empty line). -/
def pySplitlinesGo (cur : List Char) : List Char → List String
  | [] => if cur.isEmpty then [] else [String.mk cur.reverse]
  | c :: cs =>
    if c = '\n' then String.mk cur.reverse :: pySplitlinesGo [] cs
    else pySplitlinesGo (c :: cur) cs

/-- Python `s.splitlines()` for `\n`-separated text (the `\r` of a
`\r\n` pair survives here but is removed by the `strip()` that follows
every use in the source). -/
def pySplitlines (s : String) : List String :=
  pySplitlinesGo [] s.data

/-- `match_unit(pattern, unit)` from the source:
wildcard `"@*"` patterns match any instance of the template, otherwise
exact equality.  `unit.split('@', 1)[0]` is the text before the first `@`. -/
def match_unit (pattern unit : String) : Bool :=
  if List.isSuffixOf ['@', '*'] pattern.data && unit.data.contains '@' then
    pattern.data.dropLast.dropLast == unit.data.takeWhile (fun c => c != '@')
  else
    pattern == unit

/-- `get_exit_code(unit_name)` from the source: run
`systemctl show -p ExecMainStatus <unit>`; a `CalledProcessError` yields
`-1`, otherwise the integer after `ExecMainStatus=` in the output is
returned.  The external invocation together with the parse of its
well-formed output is abstracted as an `Except Unit Int` argument; the
function never fails itself. -/
def get_exit_code (query : Except Unit Int) : Int :=
  match query with
  | Except.error _ => -1
  | Except.ok status => status

/-- `check_unit(unit_name, serv_load, serv_active, serv_sub)` from the
source; the call to the global `get_exit_code` is the explicit lookup
`ec`.  Falling off the end of the Python function returns `None`. -/
def check_unit (unit_name serv_load serv_active serv_sub : String)
    (ec : String → Int) : Option Problem :=
  if serv_load ≠ "loaded" then
    if serv_active ≠ "inactive" then
      some .not_loaded_but_not_inactive
    else if serv_sub ≠ "dead" then
      some .not_loaded_but_not_dead
    else
      some .not_loaded
  else if serv_active = "failed" then
    some .failed
  else if serv_sub = "auto-restart" then
    if ec unit_name ≠ 0 then some .activating_auto_restart else none
  else if serv_sub = "dead" then
    some .dead
  else if serv_sub = "failed" then
    some .failed
  else
    none

/-- One iteration of the loop body of `process` on an already-destructured
unit record: classify, apply the critical policy, append to one list or
drop. -/
def stepRecord (args : Args) (ec : String → Int)
    (acc : List (Problem × String) × List (Problem × String))
    (unit_name serv_load serv_active serv_sub : String) :
    List (Problem × String) × List (Problem × String) :=
  match check_unit unit_name serv_load serv_active serv_sub ec with
  | none => acc
  | some problem =>
    let is_critical := args.critical_units.any (fun p => match_unit p unit_name)
    if ¬ is_critical ∧ Problem.dead.rank ≤ problem.rank then
      acc
    else if is_critical ∧ problem.rank < Problem.dead.rank then
      (acc.1 ++ [(problem, unit_name)], acc.2)
    else
      (acc.1, acc.2 ++ [(problem, unit_name)])

/-- The per-line work of `process` after `line.strip().split(None, 4)`:
a line with fewer than four fields raises in Python (`IndexError` on
`unit_split[0]` for an empty split, `TypeError` on
`check_unit(*unit_split[0:4])` otherwise), modelled as `none`. -/
def processFields (args : Args) (ec : String → Int)
    (acc : List (Problem × String) × List (Problem × String)) :
    List String → Option (List (Problem × String) × List (Problem × String))
  | unit_name :: serv_load :: serv_active :: serv_sub :: _ =>
    some (stepRecord args ec acc unit_name serv_load serv_active serv_sub)
  | _ => none

/-- One line of the loop of `process`. -/
def processLine (args : Args) (ec : String → Int)
    (acc : List (Problem × String) × List (Problem × String))
    (line : String) :
    Option (List (Problem × String) × List (Problem × String)) :=
  processFields args ec acc (pySplitWs 4 (pyStrip line))

/-- `process(output, args)` from the source: iterate the inventory lines,
returning `(criticals, warnings)`; `none` when some line raises. -/
def process (output : String) (args : Args) (ec : String → Int) :
    Option (List (Problem × String) × List (Problem × String)) :=
  (pySplitlines output).foldlM (processLine args ec) ([], [])

/-- The aggregation loop of `process` over already-parsed records
`(name, load, active, sub)` — the view of the loop §4.4 of the design
describes, shared with `processFields` through `stepRecord`. -/
def aggregate (args : Args) (ec : String → Int)
    (records : List (String × String × String × String)) :
    List (Problem × String) × List (Problem × String) :=
  records.foldl
    (fun acc r => stepRecord args ec acc r.1 r.2.1 r.2.2.1 r.2.2.2)
    ([], [])

/-- `problem_names[problem]` from `get_message`: the attribute name with
underscores replaced by spaces (`k.replace('_', ' ')`; the needle is a
single character, so a character map is exact). -/
def problemName (p : Problem) : String :=
  String.mk (p.attrName.data.map (fun c => if c = '_' then ' ' else c))

/-- The loop of `get_message`: `acc` is the message built so far and
`last` the `last_problem` variable (initially `None`). -/
def get_messageGo (acc : String) (last : Option Problem) :
    List (Problem × String) → String
  | [] => acc
  | (problem, unit) :: rest =>
    get_messageGo
      ((if some problem ≠ last then acc ++ problemName problem ++ ": " else acc) ++ unit ++ " ")
      (some problem) rest

/-- `get_message(problems)` from the source. -/
def get_message (problems : List (Problem × String)) : String :=
  get_messageGo "" none problems

/-- The `Problem` of the finding immediately before the position reached
after consuming `l`, when the one before `l` was `last`. -/
def lastProblem (last : Option Problem) : List (Problem × String) → Option Problem
  | [] => last
  | (problem, _) :: rest => lastProblem (some problem) rest

/-- `main()` from the source, after `parse_args` and the construction of
the `systemctl list-units` command line: the inventory acquisition is the
`Except String String` argument (`Except.error` = `CalledProcessError`,
carrying `str(error)`).  Returns the printed message and the exit code;
`none` when `process` raises. -/
def mainResult (inventory : Except String String) (args : Args)
    (ec : String → Int) : Option (String × Nat) :=
  match inventory with
  | Except.error e => some ("UNKNOWN: " ++ e, 3)
  | Except.ok output =>
    match process output args ec with
    | none => none
    | some (criticals, warnings) =>
      if !criticals.isEmpty then
        some ("CRITICAL: " ++ get_message (criticals ++ warnings), 2)
      else if !warnings.isEmpty then
        some ("WARNING: " ++ get_message warnings, 1)
      else
        some ("OK", 0)

/-! ## Helper lemmas -/

/-- Appending one record to the inventory runs one more loop iteration. -/
theorem aggregate_concat (args : Args) (ec : String → Int)
    (rs : List (String × String × String × String))
    (r : String × String × String × String) :
    aggregate args ec (rs ++ [r]) =
      stepRecord args ec (aggregate args ec rs) r.1 r.2.1 r.2.2.1 r.2.2.2 := by
  simp [aggregate, List.foldl_append]

/-- A record with no problem leaves the accumulator unchanged. -/
theorem stepRecord_none (args : Args) (ec : String → Int)
    (acc : List (Problem × String) × List (Problem × String)) (n l a s : String)
    (hc : check_unit n l a s ec = none) :
    stepRecord args ec acc n l a s = acc := by
  simp only [stepRecord, hc]

/-- A non-critical unit with a problem at least as benign as `dead` is
dropped. -/
theorem stepRecord_drop (args : Args) (ec : String → Int)
    (acc : List (Problem × String) × List (Problem × String)) (n l a s : String)
    (p : Problem) (hc : check_unit n l a s ec = some p)
    (hcrit : args.critical_units.any (fun q => match_unit q n) = false)
    (hrank : Problem.dead.rank ≤ p.rank) :
    stepRecord args ec acc n l a s = acc := by
  simp only [stepRecord, hc, hcrit]
  rw [if_pos ⟨by simp, hrank⟩]

/-- A critical unit with a problem more severe than `dead` goes to
`criticals`. -/
theorem stepRecord_critical (args : Args) (ec : String → Int)
    (acc : List (Problem × String) × List (Problem × String)) (n l a s : String)
    (p : Problem) (hc : check_unit n l a s ec = some p)
    (hcrit : args.critical_units.any (fun q => match_unit q n) = true)
    (hrank : p.rank < Problem.dead.rank) :
    stepRecord args ec acc n l a s = (acc.1 ++ [(p, n)], acc.2) := by
  simp only [stepRecord, hc, hcrit]
  rw [if_neg (by simp), if_pos ⟨trivial, hrank⟩]

/-- The remaining combinations go to `warnings`. -/
theorem stepRecord_warning (args : Args) (ec : String → Int)
    (acc : List (Problem × String) × List (Problem × String)) (n l a s : String)
    (p : Problem) (hc : check_unit n l a s ec = some p)
    (h : (args.critical_units.any (fun q => match_unit q n) = true ∧
            Problem.dead.rank ≤ p.rank) ∨
         (args.critical_units.any (fun q => match_unit q n) = false ∧
            p.rank < Problem.dead.rank)) :
    stepRecord args ec acc n l a s = (acc.1, acc.2 ++ [(p, n)]) := by
  rcases h with ⟨hcrit, hrank⟩ | ⟨hcrit, hrank⟩
  · simp only [stepRecord, hc, hcrit]
    rw [if_neg (by simp), if_neg (fun hh => not_lt.mpr hrank hh.2)]
  · simp only [stepRecord, hc, hcrit]
    rw [if_neg (fun hh => not_lt.mpr hh.2 hrank), if_neg (by simp)]

/-- The loop of `get_message` on a list extended by one finding: the new
unit is appended, preceded by its label exactly when its problem differs
from the problem immediately before it. -/
theorem get_messageGo_concat (l : List (Problem × String)) :
    ∀ (acc : String) (last : Option Problem) (p : Problem) (u : String),
      get_messageGo acc last (l ++ [(p, u)]) =
        get_messageGo acc last l ++
          ((if some p ≠ lastProblem last l then problemName p ++ ": " else "") ++
            (u ++ " ")) := by
  induction l with
  | nil =>
    intro acc last p u
    by_cases h : some p = last
    · simp [get_messageGo, lastProblem, h, String.append_assoc]
    · simp [get_messageGo, lastProblem, h, String.append_assoc]
  | cons head tail ih =>
    intro acc last p u
    obtain ⟨q, v⟩ := head
    simpa [get_messageGo, lastProblem] using ih _ (some q) p u

/-! ## Claim theorems -/

/-- C1: for every (load, active, sub) triple and every exit-code lookup,
`check_unit` follows the ordered rule table first-match-wins: a non-loaded
unit yields `not_loaded_but_not_inactive`, `not_loaded_but_not_dead` or
`not_loaded` according to its active/sub states; a loaded unit yields
`failed` when active-state is "failed", else in sub-state "auto-restart"
`activating_auto_restart` exactly when the lookup is non-zero and no
problem otherwise, else `dead` or `failed` by sub-state, else no problem.
Classification is a total function into `Option Problem`, so it returns at
most one `Problem`. -/
theorem check_unit_follows_rule_table (n l a s : String) (ec : String → Int) :
    (l ≠ "loaded" → a ≠ "inactive" →
      check_unit n l a s ec = some Problem.not_loaded_but_not_inactive)
  ∧ (l ≠ "loaded" → a = "inactive" → s ≠ "dead" →
      check_unit n l a s ec = some Problem.not_loaded_but_not_dead)
  ∧ (l ≠ "loaded" → a = "inactive" → s = "dead" →
      check_unit n l a s ec = some Problem.not_loaded)
  ∧ (l = "loaded" → a = "failed" → check_unit n l a s ec = some Problem.failed)
  ∧ (l = "loaded" → a ≠ "failed" → s = "auto-restart" → ec n ≠ 0 →
      check_unit n l a s ec = some Problem.activating_auto_restart)
  ∧ (l = "loaded" → a ≠ "failed" → s = "auto-restart" → ec n = 0 →
      check_unit n l a s ec = none)
  ∧ (l = "loaded" → a ≠ "failed" → s ≠ "auto-restart" → s = "dead" →
      check_unit n l a s ec = some Problem.dead)
  ∧ (l = "loaded" → a ≠ "failed" → s ≠ "auto-restart" → s ≠ "dead" → s = "failed" →
      check_unit n l a s ec = some Problem.failed)
  ∧ (l = "loaded" → a ≠ "failed" → s ≠ "auto-restart" → s ≠ "dead" → s ≠ "failed" →
      check_unit n l a s ec = none) := by
  refine ⟨?_, ?_, ?_, ?_, ?_, ?_, ?_, ?_, ?_⟩ <;> intros <;> simp_all [check_unit]

/-- Witness for C1: the first rule applied to a masked-but-active unit. -/
theorem check_unit_rule_table_applied :
    check_unit "nginx.service" "masked" "active" "running" (fun _ => 0) =
      some Problem.not_loaded_but_not_inactive :=
  (check_unit_follows_rule_table "nginx.service" "masked" "active" "running"
    (fun _ => 0)).1 (by decide) (by decide)

/-- C2: appending one record to the inventory extends the aggregation
exactly per the policy table: no problem → both lists unchanged;
non-critical with rank ≥ `dead` → dropped; critical with rank < `dead` →
appended to `criticals`; otherwise appended to `warnings`.  Each emitted
finding thus lands in exactly one list and lists grow append-only, in
input order. -/
theorem aggregate_policy (args : Args) (ec : String → Int)
    (rs : List (String × String × String × String)) (n l a s : String) :
    (check_unit n l a s ec = none →
      aggregate args ec (rs ++ [(n, l, a, s)]) = aggregate args ec rs)
  ∧ (∀ p, check_unit n l a s ec = some p →
      args.critical_units.any (fun q => match_unit q n) = false →
      Problem.dead.rank ≤ p.rank →
      aggregate args ec (rs ++ [(n, l, a, s)]) = aggregate args ec rs)
  ∧ (∀ p, check_unit n l a s ec = some p →
      args.critical_units.any (fun q => match_unit q n) = true →
      p.rank < Problem.dead.rank →
      aggregate args ec (rs ++ [(n, l, a, s)]) =
        ((aggregate args ec rs).1 ++ [(p, n)], (aggregate args ec rs).2))
  ∧ (∀ p, check_unit n l a s ec = some p →
      ((args.critical_units.any (fun q => match_unit q n) = true ∧
          Problem.dead.rank ≤ p.rank) ∨
        (args.critical_units.any (fun q => match_unit q n) = false ∧
          p.rank < Problem.dead.rank)) →
      aggregate args ec (rs ++ [(n, l, a, s)]) =
        ((aggregate args ec rs).1, (aggregate args ec rs).2 ++ [(p, n)])) := by
  refine ⟨?_, ?_, ?_, ?_⟩
  · intro hc
    rw [aggregate_concat, stepRecord_none _ _ _ _ _ _ _ hc]
  · intro p hc hcrit hrank
    rw [aggregate_concat, stepRecord_drop _ _ _ _ _ _ _ p hc hcrit hrank]
  · intro p hc hcrit hrank
    rw [aggregate_concat, stepRecord_critical _ _ _ _ _ _ _ p hc hcrit hrank]
  · intro p hc h
    rw [aggregate_concat, stepRecord_warning _ _ _ _ _ _ _ p hc h]

/-- Witness for C2: a non-critical failed unit is appended to `warnings`. -/
theorem aggregate_policy_applied :
    aggregate ⟨false, [], []⟩ (fun _ => 0)
      [("a.service", "loaded", "failed", "failed")] =
      ([], [(Problem.failed, "a.service")]) :=
  (aggregate_policy ⟨false, [], []⟩ (fun _ => 0) [] "a.service" "loaded" "failed"
    "failed").2.2.2 Problem.failed (by decide) (Or.inr ⟨by decide, by decide⟩)

/-- C3: a failing inventory command yields `"UNKNOWN: " ++ error` and exit
code 3; otherwise non-empty `criticals` yields `"CRITICAL: "` over
`criticals ++ warnings` with exit code 2, else non-empty `warnings` yields
`"WARNING: "` over `warnings` alone with exit code 1, else exactly `"OK"`
with exit code 0. -/
theorem main_output_format (args : Args) (ec : String → Int) :
    (∀ e, mainResult (Except.error e) args ec = some ("UNKNOWN: " ++ e, 3))
  ∧ (∀ output criticals warnings,
      process output args ec = some (criticals, warnings) →
      (criticals ≠ [] →
        mainResult (Except.ok output) args ec =
          some ("CRITICAL: " ++ get_message (criticals ++ warnings), 2))
    ∧ (criticals = [] → warnings ≠ [] →
        mainResult (Except.ok output) args ec =
          some ("WARNING: " ++ get_message warnings, 1))
    ∧ (criticals = [] → warnings = [] →
        mainResult (Except.ok output) args ec = some ("OK", 0))) := by
  refine ⟨fun e => rfl, ?_⟩
  intro output criticals warnings hp
  refine ⟨?_, ?_, ?_⟩
  · intro hc
    rcases criticals with _ | ⟨c0, cs⟩
    · exact absurd rfl hc
    · simp [mainResult, hp, List.isEmpty]
  · intro hc hw
    subst hc
    rcases warnings with _ | ⟨w0, ws⟩
    · exact absurd rfl hw
    · simp [mainResult, hp, List.isEmpty]
  · intro hc hw
    subst hc; subst hw
    simp [mainResult, hp, List.isEmpty]

/-- Witness for C3: a critical failed unit produces the CRITICAL line and
exit code 2. -/
theorem main_output_format_applied :
    mainResult (Except.ok "sshd.service loaded failed failed")
      ⟨false, ["sshd.service"], []⟩ (fun _ => 0) =
      some ("CRITICAL: " ++ get_message ([(Problem.failed, "sshd.service")] ++ []), 2) :=
  ((main_output_format ⟨false, ["sshd.service"], []⟩ (fun _ => 0)).2
    "sshd.service loaded failed failed" [(Problem.failed, "sshd.service")] []
    (by decide)).1 (by decide)

/-- C4: a pattern ending in the wildcard suffix `"@*"` matches a unit name
containing `"@"` exactly when the pattern text before `"@*"` equals the
unit-name text before its first `"@"`; in every other case the match is
exact string equality; in particular the four listed examples hold. -/
theorem match_unit_spec (pattern unit : String) :
    (List.isSuffixOf ['@', '*'] pattern.data = true →
      unit.data.contains '@' = true →
      (match_unit pattern unit = true ↔
        pattern.data.dropLast.dropLast = unit.data.takeWhile (fun c => c != '@')))
  ∧ (¬ (List.isSuffixOf ['@', '*'] pattern.data = true ∧
        unit.data.contains '@' = true) →
      (match_unit pattern unit = true ↔ pattern = unit))
  ∧ match_unit "foo@*" "foo@1" = true
  ∧ match_unit "foo@*" "bar@1" = false
  ∧ match_unit "foo" "foo" = true
  ∧ match_unit "foo" "foobar" = false := by
  refine ⟨?_, ?_, by decide, by decide, by decide, by decide⟩
  · intro h1 h2
    simp only [match_unit]
    rw [if_pos (by simp [h1]; simpa using h2)]
    simp
  · intro h
    have hb : (List.isSuffixOf ['@', '*'] pattern.data &&
        unit.data.contains '@') = false := by
      cases hA : List.isSuffixOf ['@', '*'] pattern.data <;>
        cases hB : unit.data.contains '@' <;> simp_all
    simp only [match_unit]
    rw [if_neg (fun hc => by rw [hc] at hb; simp at hb)]
    simp

/-- Witness for C4: the wildcard rule applied to a fresh instance name. -/
theorem match_unit_spec_applied : match_unit "getty@*" "getty@tty1" = true :=
  ((match_unit_spec "getty@*" "getty@tty1").1 (by decide) (by decide)).mpr (by decide)

/-- C5: `get_message` walks the findings in order, emits `"<label>: "`
(the problem's attribute name with underscores rendered as spaces, per
`problemName`) exactly when the problem differs from the immediately
preceding finding's, and appends each unit name with one trailing space;
a non-contiguous recurrence re-emits its label, as on the example list. -/
theorem get_message_labels :
    (∀ (l : List (Problem × String)) (p : Problem) (u : String),
      get_message (l ++ [(p, u)]) =
        get_message l ++
          ((if some p ≠ lastProblem none l then problemName p ++ ": " else "") ++
            (u ++ " ")))
  ∧ get_message [(Problem.failed, "x"), (Problem.failed, "y"),
      (Problem.dead, "z"), (Problem.failed, "w")] =
      "failed: x y dead: z failed: w " :=
  ⟨fun l p u => get_messageGo_concat l "" none p u, by decide⟩

/-- C6: the ignored-unit patterns collected by `-i` are never consulted:
`process` returns identical findings whatever `ignored_units` holds, and
in particular a failed unit named by an ignored pattern still produces a
warning finding instead of being excluded. -/
theorem ignored_units_have_no_effect :
    (∀ (output : String) (ca : Bool) (crit ign ign' : List String)
        (ec : String → Int),
      process output ⟨ca, crit, ign⟩ ec = process output ⟨ca, crit, ign'⟩ ec)
  ∧ process "foo.service loaded failed failed" ⟨false, [], ["foo.service"]⟩
      (fun _ => 0) = some ([], [(Problem.failed, "foo.service")]) :=
  ⟨fun _ _ _ _ _ _ => rfl, by decide⟩

/-- C7: when the live exit-status query cannot be performed,
`get_exit_code` returns the non-zero sentinel `-1` (a value, never a
failure), and a loaded, not-failed unit in sub-state "auto-restart" whose
lookup fails is classified `activating_auto_restart`, never cleared. -/
theorem get_exit_code_fail_safe :
    (get_exit_code (Except.error ()) = -1 ∧ get_exit_code (Except.error ()) ≠ 0)
  ∧ (∀ name active : String, active ≠ "failed" →
      check_unit name "loaded" active "auto-restart"
        (fun _ => get_exit_code (Except.error ())) =
        some Problem.activating_auto_restart) := by
  refine ⟨⟨rfl, by decide⟩, ?_⟩
  intro name active ha
  simp [check_unit, get_exit_code, ha]

/-- Witness for C7: an activating unit whose status query fails is
reported as a crash-restart loop. -/
theorem get_exit_code_fail_safe_applied :
    check_unit "cron.service" "loaded" "activating" "auto-restart"
      (fun _ => get_exit_code (Except.error ())) =
      some Problem.activating_auto_restart :=
  get_exit_code_fail_safe.2 "cron.service" "activating" (by decide)

/-- C8: an inventory line with fewer than four whitespace-delimited fields
makes the run raise (modelled as `none`): the malformed record is neither
skipped nor processed, even when a well-formed record follows it. -/
theorem process_malformed_line_raises :
    process "a.service loaded failed" ⟨false, [], []⟩ (fun _ => 0) = none
  ∧ process "a.service loaded failed\nb.service loaded failed failed"
      ⟨false, [], []⟩ (fun _ => 0) = none :=
  ⟨by decide, by decide⟩

/-- C9: a line's processing depends only on its first four
whitespace-delimited fields: two lines that split to the same four leading
fields — whatever trailing text follows — are processed identically. -/
theorem trailing_text_ignored (args : Args) (ec : String → Int)
    (acc : List (Problem × String) × List (Problem × String))
    (line line' n l a s : String) (rest rest' : List String)
    (h : pySplitWs 4 (pyStrip line) = n :: l :: a :: s :: rest)
    (h' : pySplitWs 4 (pyStrip line') = n :: l :: a :: s :: rest') :
    processLine args ec acc line = processLine args ec acc line' := by
  rw [processLine, processLine, h, h']
  rfl

/-- Witness for C9: extra trailing words on an inventory line leave the
produced findings unchanged. -/
theorem trailing_text_ignored_applied :
    processLine ⟨false, [], []⟩ (fun _ => 0) ([], [])
      "a.service loaded failed failed extra columns" =
    processLine ⟨false, [], []⟩ (fun _ => 0) ([], [])
      "a.service loaded failed failed" :=
  trailing_text_ignored ⟨false, [], []⟩ (fun _ => 0) ([], [])
    "a.service loaded failed failed extra columns"
    "a.service loaded failed failed" "a.service" "loaded" "failed" "failed"
    ["extra columns"] [] (by decide) (by decide)

/-- C10: `check_unit` sees the exit-code lookup only through the zeroness
of its value at the unit's own name — lookups agreeing on zeroness give
equal classifications — and whenever the unit is not loaded, or its
active-state is "failed", or its sub-state is not "auto-restart", the
classification does not depend on the lookup at all. -/
theorem check_unit_lookup_noninterference (n l a s : String)
    (ec1 ec2 : String → Int) :
    ((ec1 n = 0 ↔ ec2 n = 0) → check_unit n l a s ec1 = check_unit n l a s ec2)
  ∧ (l ≠ "loaded" ∨ a = "failed" ∨ s ≠ "auto-restart" →
      check_unit n l a s ec1 = check_unit n l a s ec2) := by
  constructor
  · intro h
    by_cases hl : l = "loaded"
    · subst hl
      by_cases ha : a = "failed"
      · simp [check_unit, ha]
      · by_cases hs : s = "auto-restart"
        · subst hs
          by_cases h1 : ec1 n = 0
          · have h2 := h.mp h1
            simp [check_unit, ha, h1, h2]
          · have h2 : ¬ ec2 n = 0 := fun hh => h1 (h.mpr hh)
            simp [check_unit, ha, h1, h2]
        · simp [check_unit, ha, hs]
    · simp [check_unit, hl]
  · intro h
    rcases h with hl | ha | hs
    · simp [check_unit, hl]
    · by_cases hl : l = "loaded"
      · simp [check_unit, hl, ha]
      · simp [check_unit, hl]
    · by_cases hl : l = "loaded"
      · by_cases ha : a = "failed"
        · simp [check_unit, hl, ha]
        · simp [check_unit, hl, ha, hs]
      · simp [check_unit, hl]

/-- Witness for C10: two lookups that are both non-zero at the unit give
the same classification. -/
theorem check_unit_lookup_noninterference_applied :
    check_unit "u.service" "loaded" "activating" "auto-restart" (fun _ => 5) =
    check_unit "u.service" "loaded" "activating" "auto-restart" (fun _ => -1) :=
  (check_unit_lookup_noninterference "u.service" "loaded" "activating"
    "auto-restart" (fun _ => 5) (fun _ => -1)).1 (by decide)
